import Mathlib

/-!
Shallow embedding of the TinyCat behavior core (tinycat-extension):
the transition-table state machine (src/src/state-machine.js), the
cursor-signal classifier's idle and circular-motion logic
(src/src/cursor-tracker.js), and the behavior controller's cooldown and
proximity gating plus settings application (src/src/cat.js).

Randomness: every probabilistic guard in the source is a call
`Math.random() < p`.  We parametrize `send` by an oracle `ρ : Nat → ℚ`
giving the random draw used for the guard of the rule at index `i` of the
current state's candidate list; within a single `send` call each rule's
guard is evaluated at most once, so indexing draws by rule position is a
faithful parametrization of the source's call-order draws.

Machine integers: all timestamps and durations are JavaScript numbers
holding integral millisecond values; they are embedded as `Nat`
(timestamps from `Date.now()` are nonnegative and monotone).  Pixel
coordinates are embedded as `ℤ`; the source's
`Math.sqrt(dx*dx+dy*dy) > R` is embedded as `dx^2 + dy^2 > R^2`, which is
equivalent for nonnegative radicands since squaring is monotone.
-/

namespace TinyCat

/-- The ten behavior states (`States` in src/src/state-machine.js). -/
inductive State where
  | idle
  | stretching
  | drinking
  | pounce
  | startled
  | falling
  | grooming
  | dizzy
  | sleep
  | alertSleep
deriving DecidableEq, Fintype, Repr

/-- The signal enumeration (`Events` in src/src/state-machine.js). -/
inductive Event where
  | cursorMove
  | cursorFast
  | cursorIdle
  | click
  | directionChange
  | circularMotion
  | longIdle
  | mediumIdle
  | nearCursor
  | cursorAway
  | animationDone
  | repeatedFast
deriving DecidableEq, Fintype, Repr

/-- One entry of the transition table: `{ event, target, guard? }`.
A guard `some p` embeds the source guard `() => Math.random() < p`. -/
structure Rule where
  event : Event
  target : State
  guard : Option ℚ := none
deriving DecidableEq, Repr

/-- The transition table (src/src/state-machine.js, lines 243-310).
Each state maps to its ordered candidate list; order is priority. -/
def transitions : State → List Rule
  | State.idle =>
      [ { event := Event.click,           target := State.startled },
        { event := Event.cursorFast,      target := State.pounce,
          guard := some (40/100) },
        { event := Event.nearCursor,      target := State.stretching,
          guard := some (30/100) },
        { event := Event.nearCursor,      target := State.pounce,
          guard := some (25/100) },
        { event := Event.longIdle,        target := State.sleep },
        { event := Event.mediumIdle,      target := State.stretching,
          guard := some (35/100) },
        { event := Event.mediumIdle,      target := State.grooming,
          guard := some (50/100) },
        { event := Event.mediumIdle,      target := State.drinking } ]
  | State.stretching =>
      [ { event := Event.click,           target := State.startled },
        { event := Event.cursorFast,      target := State.pounce },
        { event := Event.animationDone,   target := State.grooming,
          guard := some (30/100) },
        { event := Event.animationDone,   target := State.idle } ]
  | State.drinking =>
      [ { event := Event.click,           target := State.startled },
        { event := Event.animationDone,   target := State.idle } ]
  | State.pounce =>
      [ { event := Event.repeatedFast,    target := State.dizzy },
        { event := Event.animationDone,   target := State.idle } ]
  | State.startled =>
      [ { event := Event.animationDone,   target := State.falling } ]
  | State.falling =>
      [ { event := Event.animationDone,   target := State.grooming,
          guard := some (60/100) },
        { event := Event.animationDone,   target := State.idle } ]
  | State.grooming =>
      [ { event := Event.click,           target := State.startled },
        { event := Event.animationDone,   target := State.stretching,
          guard := some (20/100) },
        { event := Event.animationDone,   target := State.idle } ]
  | State.dizzy =>
      [ { event := Event.animationDone,   target := State.idle } ]
  | State.sleep =>
      [ { event := Event.nearCursor,      target := State.alertSleep },
        { event := Event.click,           target := State.startled } ]
  | State.alertSleep =>
      [ { event := Event.nearCursor,      target := State.idle },
        { event := Event.click,           target := State.startled },
        { event := Event.cursorAway,      target := State.sleep },
        { event := Event.longIdle,        target := State.sleep } ]

/-- Duration (ms) each timed state plays before the timer sends
ANIMATION_DONE (`stateDurations`, src/src/state-machine.js). -/
def stateDurations : State → Option Nat
  | State.stretching => some 3000
  | State.drinking   => some 3500
  | State.pounce     => some 800
  | State.startled   => some 600
  | State.falling    => some 1000
  | State.grooming   => some 4000
  | State.dizzy      => some 2500
  | _                => none

/-- The mutable fields of the `StateMachine` class: `_state`,
`_disabledStates` (a Set, embedded by its membership as a list), and
`_timer` (the pending auto-advance duration, `none` when no timer is
pending).  Listener callbacks are embedded as the list of notification
events `(newState, oldState)` an operation emits: `_notify` invokes every
registered listener exactly once per emitted event. -/
structure SM where
  state : State
  disabled : List State
  timer : Option Nat
deriving DecidableEq, Repr

/-- Initial machine: state IDLE, empty disabled set, no timer. -/
def initSM : SM := { state := State.idle, disabled := [], timer := none }

/-- Evaluation of a rule's guard with draw `ρ i`: absent guard passes,
present guard passes iff the draw is below the threshold. -/
def guardPasses (ρ : Nat → ℚ) (i : Nat) : Option ℚ → Bool
  | none => true
  | some p => decide (ρ i < p)

/-- The candidate scan inside `send` (src/src/state-machine.js,
lines 369-381): first rule whose event matches, whose guard passes, and
whose target is not disabled; `none` when no rule survives. -/
def firstMatch (ρ : Nat → ℚ) (ev : Event) (disabled : List State) :
    Nat → List Rule → Option State
  | _, [] => none
  | i, r :: rs =>
      if r.event ≠ ev then firstMatch ρ ev disabled (i + 1) rs
      else if ¬ guardPasses ρ i r.guard then firstMatch ρ ev disabled (i + 1) rs
      else if r.target ∈ disabled then firstMatch ρ ev disabled (i + 1) rs
      else some r.target

/-- `send(event)` (src/src/state-machine.js, lines 365-393).  Returns the
new machine, the emitted notification events, and the boolean result.
On a surviving rule: state updates, the timer is cleared and restarted
per the new state's duration, listeners are notified once.  Fallback: on
ANIMATION_DONE with no surviving rule and a non-IDLE current state, force
a transition to IDLE. -/
def send (ρ : Nat → ℚ) (ev : Event) (m : SM) :
    SM × List (State × State) × Bool :=
  match firstMatch ρ ev m.disabled 0 (transitions m.state) with
  | some tgt =>
      ({ state := tgt, disabled := m.disabled, timer := stateDurations tgt },
        [(tgt, m.state)], true)
  | none =>
      if ev = Event.animationDone ∧ m.state ≠ State.idle then
        ({ state := State.idle, disabled := m.disabled,
           timer := stateDurations State.idle },
          [(State.idle, m.state)], true)
      else (m, [], false)

/-- `setDisabledStates(states)` (src/src/state-machine.js,
lines 339-350): replace the disabled set, forcibly delete IDLE from it
(`new Set(states)` followed by `delete(IDLE)`, embedded by membership as
a filter), and snap to IDLE — notifying listeners once — when the
current state is now disabled. -/
def setDisabledStates (states : List State) (m : SM) :
    SM × List (State × State) :=
  let d := states.filter (fun s => s ≠ State.idle)
  if m.state ∈ d then
    ({ state := State.idle, disabled := d, timer := stateDurations State.idle },
      [(State.idle, m.state)])
  else
    ({ m with disabled := d }, [])

/-! ## Signal classifier: idle detection (src/src/cursor-tracker.js) -/

/-- The classifier state relevant to idle detection: `_lastMoveTime`, the
two `_idleEmitted` flags, and the configured thresholds
(`mediumIdleMs` default 8000, `longIdleMs` default 30000). -/
structure IdleTracker where
  lastMove : Nat
  medEmitted : Bool
  longEmitted : Bool
  mediumIdleMs : Nat
  longIdleMs : Nat
deriving DecidableEq, Repr

/-- `_onMouseMove` (src/src/cursor-tracker.js, lines 76-81): record the
move time and reset both already-emitted flags. -/
def onMouseMove (t : Nat) (s : IdleTracker) : IdleTracker :=
  { s with lastMove := t, medEmitted := false, longEmitted := false }

/-- `_checkIdle` (src/src/cursor-tracker.js, lines 158-168), run once per
frame at wall-clock time `t`: emit LONG_IDLE once past the long threshold,
else MEDIUM_IDLE once past the medium threshold.  Returns the new state
and the emitted signal, if any. -/
def checkIdle (t : Nat) (s : IdleTracker) : IdleTracker × Option Event :=
  if t - s.lastMove ≥ s.longIdleMs ∧ s.longEmitted = false then
    ({ s with longEmitted := true }, some Event.longIdle)
  else if t - s.lastMove ≥ s.mediumIdleMs ∧ s.medEmitted = false then
    ({ s with medEmitted := true }, some Event.mediumIdle)
  else (s, none)

/-- A movement-free stretch of frames: run `_checkIdle` at each time in
`ts`, collecting all emitted signals. -/
def runChecks (s : IdleTracker) : List Nat → IdleTracker × List Event
  | [] => (s, [])
  | t :: ts =>
      let p := checkIdle t s
      let q := runChecks p.1 ts
      (q.1, p.2.toList ++ q.2)

/-! ## Signal classifier: circular motion (src/src/cursor-tracker.js) -/

/-- `Math.abs` on a rational value. -/
def ratAbs (q : ℚ) : ℚ := if q < 0 then -q else q

/-- The delta wrap at the top of `_trackCircularMotion`
(src/src/cursor-tracker.js, lines 141-143): normalize a signed angular
delta into (-180, 180]. -/
def wrapDelta (d : ℚ) : ℚ :=
  if d > 180 then d - 360 else if d < -180 then d + 360 else d

/-- `_trackCircularMotion` (src/src/cursor-tracker.js, lines 140-156) as
a function of the `_angleSamples` ring buffer and the frame's raw angular
delta: push the wrapped delta, cap the buffer at 30 samples
(`circularSamples`), and when full compare the sum of absolute deltas
against 500 (`circularAngleSum`); on success clear the buffer and emit
CIRCULAR_MOTION.  Returns the new buffer and whether the signal fired. -/
def trackCircularMotion (samples : List ℚ) (rawDelta : ℚ) : List ℚ × Bool :=
  let pushed := samples ++ [wrapDelta rawDelta]
  let buf := if pushed.length > 30 then pushed.tail else pushed
  if buf.length = 30 then
    if buf.foldl (fun a b => a + ratAbs b) 0 ≥ 500 then ([], true)
    else (buf, false)
  else (buf, false)

/-! ## Behavior controller (src/src/cat.js, first variant, lines 1-117) -/

/-- The cooldown table `_cooldownMs` (src/src/cat.js, lines 37-43);
events without an entry are never cooldown-gated.  (The source guards
with a truthiness test on the entry; every entry present is nonzero.) -/
def cooldownMs : Event → Option Nat
  | Event.cursorFast     => some 2000
  | Event.nearCursor     => some 1500
  | Event.cursorAway     => some 2000
  | Event.mediumIdle     => some 1000
  | Event.circularMotion => some 2000
  | _                    => none

/-- `FAST_NOTICE_RANGE` (src/src/cat.js, line 25): fast cursor movement
is only noticed within this many pixels of the cat. -/
def fastNoticeRange : ℤ := 250

/-- Controller state: `_eventCooldowns` (last-fired timestamp per event;
JavaScript reads an absent entry as 0, so the map totalizes to 0) plus
the latest cursor-near directive issued to the renderer via
`setCursorNear` (`none` before the first directive). -/
structure Ctrl where
  cooldowns : Event → Nat
  cursorNear : Option Bool

/-- A freshly constructed controller: no cooldown timestamps, no
cursor-near directive issued yet. -/
def initCtrl : Ctrl := { cooldowns := fun _ => 0, cursorNear := none }

/-- The proximity side effect at the top of `_handleEvent`
(src/src/cat.js, lines 80-84): NEAR_CURSOR and CURSOR_AWAY update the
renderer's cursor-near flag, bypassing all gating.  The rendering
collaborator itself is out of scope; its `setCursorNear` call is
recorded as a directive. -/
def nearUpdate (ev : Event) (c : Ctrl) : Ctrl :=
  if ev = Event.nearCursor then { c with cursorNear := some true }
  else if ev = Event.cursorAway then { c with cursorNear := some false }
  else c

/-- The cooldown gate of `_handleEvent` (src/src/cat.js, lines 94-100):
an event with a cooldown entry arriving within the window of its last
forwarding is dropped without refreshing the timestamp; otherwise the
timestamp is set to `now` and the event is forwarded to
`this._sm.send`.  The boolean is "reached the state machine". -/
def cooldownGate (now : Nat) (ev : Event) (c : Ctrl) : Ctrl × Bool :=
  match cooldownMs ev with
  | some cd =>
      if now - c.cooldowns ev < cd then (c, false)
      else
        ({ c with cooldowns := fun e => if e = ev then now else c.cooldowns e },
          true)
  | none => (c, true)

/-- `_handleEvent(event)` (src/src/cat.js, lines 78-103) at wall-clock
time `now`, with tracked pointer position `(px, py)` and the cat's
rendered position `(cx, cy)`: after the proximity side effect, a fast
signal farther than `FAST_NOTICE_RANGE` from the cat is discarded
outright (the source compares `Math.sqrt(dx*dx+dy*dy) > 250`, embedded
as the equivalent squared comparison); everything else proceeds to the
cooldown gate. -/
def handleEvent (now : Nat) (px py cx cy : ℤ) (ev : Event) (c : Ctrl) :
    Ctrl × Bool :=
  let c1 := nearUpdate ev c
  if (ev = Event.cursorFast ∨ ev = Event.repeatedFast) ∧
      (px - cx) ^ 2 + (py - cy) ^ 2 > fastNoticeRange ^ 2 then
    (c1, false)
  else cooldownGate now ev c1

/-! ## Settings application (src/src/cat.js, lines 66-76) -/

/-- A (partial) settings object as consumed by `applySettings`: each
field is optional. -/
structure CatSettings where
  catSpeed : Option ℚ := none
  idleTimeout : Option Nat := none
  disabledStates : Option (List State) := none

/-- The methods defined on the `CursorTracker` class
(src/src/cursor-tracker.js, lines 28-184).  Note that no
`setIdleTimeout` method exists: the thresholds in `_config` are written
only from `DEFAULTS` in the constructor. -/
def trackerMethods : List String :=
  ["constructor", "start", "stop", "_onMouseMove", "_onClick", "_tick",
   "_checkSpeed", "_recordFastBurst", "_checkDirectionChange",
   "_trackCircularMotion", "_checkIdle", "_checkProximity"]

/-- Modelled from the spec: the rendering collaborator's method surface.
The renderer variant matching the controller of src/src/cat.js is not
part of the sources; per the spec the renderer is an out-of-scope
collaborator whose contract comprises setState, setTarget, goHome,
setCursorNear, mount/unmount and a position getter, with applySettings
additionally updating its movement speed factor (`setSpeed`). -/
def rendererMethods : List String :=
  ["constructor", "position", "mount", "unmount", "setState", "setTarget",
   "goHome", "setCursorNear", "setSpeed"]

/-- A JavaScript method call `obj.name(...)`: when `name` is not a
method of the object, the call throws a TypeError. -/
def callMethod (methods : List String) (name : String) : Except String Unit :=
  if name ∈ methods then Except.ok ()
  else Except.error ("TypeError: " ++ name ++ " is not a function")

/-- `applySettings(settings)` (src/src/cat.js, lines 66-76): for each
field present, perform the corresponding update in source order —
`this._renderer.setSpeed(...)` for `catSpeed`,
`this._tracker.setIdleTimeout(...)` for `idleTimeout`, and
`this._sm.setDisabledStates(...)` for `disabledStates`.  An uncaught
TypeError from a missing method aborts the call; the result carries the
state machine after the disabled-states update (the only update whose
receiver is embedded here as data). -/
def applySettings (s : CatSettings) (m : SM) : Except String SM := do
  if s.catSpeed.isSome then
    callMethod rendererMethods "setSpeed"
  if s.idleTimeout.isSome then
    callMethod trackerMethods "setIdleTimeout"
  match s.disabledStates with
  | some d => pure (setDisabledStates d m).1
  | none => pure m

/-! ## Helper lemmas -/

/-- A successful candidate scan returns the target of a declared rule for
the scanned event whose target is not disabled. -/
theorem firstMatch_some_mem (ρ : Nat → ℚ) (ev : Event) (d : List State)
    (tgt : State) :
    ∀ (i : Nat) (rs : List Rule), firstMatch ρ ev d i rs = some tgt →
      ∃ r ∈ rs, r.event = ev ∧ r.target = tgt ∧ tgt ∉ d := by
  intro i rs
  induction rs generalizing i with
  | nil => intro h; simp [firstMatch] at h
  | cons r rs ih =>
      intro h
      simp only [firstMatch] at h
      by_cases h1 : r.event ≠ ev
      · rw [if_pos h1] at h
        obtain ⟨r', hm, hp⟩ := ih _ h
        exact ⟨r', List.mem_cons_of_mem _ hm, hp⟩
      · rw [if_neg h1] at h
        by_cases h2 : ¬ guardPasses ρ i r.guard
        · rw [if_pos h2] at h
          obtain ⟨r', hm, hp⟩ := ih _ h
          exact ⟨r', List.mem_cons_of_mem _ hm, hp⟩
        · rw [if_neg h2] at h
          by_cases h3 : r.target ∈ d
          · rw [if_pos h3] at h
            obtain ⟨r', hm, hp⟩ := ih _ h
            exact ⟨r', List.mem_cons_of_mem _ hm, hp⟩
          · rw [if_neg h3] at h
            obtain rfl : r.target = tgt := Option.some.inj h
            exact ⟨r, List.mem_cons_self _ _, not_ne_iff.mp h1, rfl, h3⟩

/-- A scan over rules none of which carries the scanned event fails. -/
theorem firstMatch_none_of_event_ne (ρ : Nat → ℚ) (ev : Event)
    (d : List State) :
    ∀ (i : Nat) (rs : List Rule), (∀ r ∈ rs, r.event ≠ ev) →
      firstMatch ρ ev d i rs = none := by
  intro i rs
  induction rs generalizing i with
  | nil => intro _; rfl
  | cons r rs ih =>
      intro h
      simp only [firstMatch]
      rw [if_pos (h r (List.mem_cons_self _ _))]
      exact ih _ fun r' hr' => h r' (List.mem_cons_of_mem _ hr')

/-! ## Claim theorems -/

/-- C1 (counterexample): from STARTLED with FALLING disabled,
`send(AnimationDone)` moves the machine to IDLE; yet the only target
declared by any rule of STARTLED is FALLING, so the machine reached a
state outside the declared rule set for (STARTLED, AnimationDone),
contradicting the claim as stated. -/
theorem c1_counterexample :
    (send (fun _ => 0) Event.animationDone
        { state := State.startled, disabled := [State.falling],
          timer := some 600 }).1.state = State.idle ∧
    (transitions State.startled).map Rule.target = [State.falling] ∧
    State.idle ≠ State.falling := by decide

/-- C1 (amended): for every state, signal and random oracle, `send`
either leaves the state unchanged, or moves to a non-disabled target of
a declared rule for the current (state, signal) pair, or — only when the
signal is the synthetic AnimationDone — moves to IDLE via the fallback
rule. -/
theorem c1_amended (ρ : Nat → ℚ) (ev : Event) (m : SM) :
    (send ρ ev m).1.state = m.state ∨
    (∃ r ∈ transitions m.state, r.event = ev ∧
        r.target = (send ρ ev m).1.state ∧
        (send ρ ev m).1.state ∉ m.disabled) ∨
    (ev = Event.animationDone ∧ (send ρ ev m).1.state = State.idle) := by
  rcases hfm : firstMatch ρ ev m.disabled 0 (transitions m.state) with _ | tgt
  · by_cases hc : ev = Event.animationDone ∧ m.state ≠ State.idle
    · obtain ⟨he, hne⟩ := hc
      subst he
      exact Or.inr (Or.inr ⟨rfl, by simp [send, hfm, hne]⟩)
    · exact Or.inl (by simp [send, hfm, hc])
  · have hst : (send ρ ev m).1.state = tgt := by simp [send, hfm]
    refine Or.inr (Or.inl ?_)
    rw [hst]
    exact firstMatch_some_mem ρ ev m.disabled tgt 0 (transitions m.state) hfm

/-- C2: from any non-IDLE state, `send(AnimationDone)` always reports a
transition, and whenever no table rule survives the scan the machine is
forced to IDLE — a timed state never becomes stuck even with all of its
declared destinations disabled. -/
theorem c2 (ρ : Nat → ℚ) (m : SM) (h : m.state ≠ State.idle) :
    (send ρ Event.animationDone m).2.2 = true ∧
    (firstMatch ρ Event.animationDone m.disabled 0 (transitions m.state)
        = none →
      (send ρ Event.animationDone m).1.state = State.idle) := by
  rcases hfm : firstMatch ρ Event.animationDone m.disabled 0
      (transitions m.state) with _ | tgt
  · constructor
    · simp [send, hfm, h]
    · intro _; simp [send, hfm, h]
  · constructor
    · simp [send, hfm]
    · intro hnone
      simp at hnone

/-- C2 (witness): from STARTLED with its only destination FALLING
disabled, `send(AnimationDone)` reports a transition and lands in IDLE. -/
theorem c2_witness :
    (send (fun _ => 0) Event.animationDone
        { state := State.startled, disabled := [State.falling],
          timer := some 600 }).2.2 = true ∧
    (firstMatch (fun _ => 0) Event.animationDone [State.falling] 0
        (transitions State.startled) = none →
      (send (fun _ => 0) Event.animationDone
          { state := State.startled, disabled := [State.falling],
            timer := some 600 }).1.state = State.idle) :=
  c2 (fun _ => 0)
    { state := State.startled, disabled := [State.falling], timer := some 600 }
    (by decide)

/-- C3: after any `setDisabledStates(S)`, the stored disabled set never
contains IDLE, whatever was requested. -/
theorem c3 (states : List State) (m : SM) :
    State.idle ∉ ((setDisabledStates states m).1).disabled := by
  simp only [setDisabledStates]
  split_ifs with h <;> simp [List.mem_filter]

/-- C3 (witness): requesting IDLE and POUNCE disabled leaves IDLE out of
the stored disabled set. -/
theorem c3_witness :
    State.idle ∉
      ((setDisabledStates [State.idle, State.pounce] initSM).1).disabled :=
  c3 [State.idle, State.pounce] initSM

/-- C4: if `setDisabledStates(S)` is called while the current state is a
non-IDLE member of S, the machine snaps to IDLE and emits exactly one
listener notification, with arguments (IDLE, previousState); if the
current state is not in S, the state is kept and no notification is
emitted. -/
theorem c4 (states : List State) (m : SM) :
    (m.state ∈ states ∧ m.state ≠ State.idle →
      (setDisabledStates states m).1.state = State.idle ∧
      (setDisabledStates states m).2 = [(State.idle, m.state)]) ∧
    (m.state ∉ states →
      (setDisabledStates states m).1.state = m.state ∧
      (setDisabledStates states m).2 = []) := by
  constructor
  · rintro ⟨h1, h2⟩
    simp [setDisabledStates, List.mem_filter, h1, h2]
  · intro h
    simp [setDisabledStates, List.mem_filter, h]

/-- C4 (witness): disabling POUNCE while in POUNCE snaps to IDLE with
exactly one (IDLE, POUNCE) notification; disabling POUNCE while in IDLE
leaves the state and emits nothing. -/
theorem c4_witness :
    ((setDisabledStates [State.pounce]
        { state := State.pounce, disabled := [], timer := some 800 }).1.state
      = State.idle ∧
     (setDisabledStates [State.pounce]
        { state := State.pounce, disabled := [], timer := some 800 }).2
      = [(State.idle, State.pounce)]) ∧
    ((setDisabledStates [State.pounce] initSM).1.state = initSM.state ∧
     (setDisabledStates [State.pounce] initSM).2 = []) :=
  ⟨(c4 [State.pounce]
      { state := State.pounce, disabled := [], timer := some 800 }).1
      (by decide),
   (c4 [State.pounce] initSM).2 (by decide)⟩

/-- Once the medium flag is set, a movement-free run of idle checks never
emits MediumIdle again. -/
theorem runChecks_med_zero (ts : List Nat) :
    ∀ s : IdleTracker, s.medEmitted = true →
      (runChecks s ts).2.count Event.mediumIdle = 0 := by
  induction ts with
  | nil => intro s _; rfl
  | cons t ts ih =>
      intro s h
      simp only [runChecks, checkIdle]
      split_ifs with h1 h2
      · simpa [List.count_cons] using ih _ (by simp [h])
      · exact absurd h2.2 (by simp [h])
      · simpa using ih _ h

/-- Once the long flag is set, a movement-free run of idle checks never
emits LongIdle again. -/
theorem runChecks_long_zero (ts : List Nat) :
    ∀ s : IdleTracker, s.longEmitted = true →
      (runChecks s ts).2.count Event.longIdle = 0 := by
  induction ts with
  | nil => intro s _; rfl
  | cons t ts ih =>
      intro s h
      simp only [runChecks, checkIdle]
      split_ifs with h1 h2
      · exact absurd h1.2 (by simp [h])
      · simpa [List.count_cons] using ih _ (by simp [h])
      · simpa using ih _ h

/-- A movement-free run of idle checks emits MediumIdle at most once. -/
theorem runChecks_med_le_one (ts : List Nat) :
    ∀ s : IdleTracker, (runChecks s ts).2.count Event.mediumIdle ≤ 1 := by
  induction ts with
  | nil => intro s; simp [runChecks]
  | cons t ts ih =>
      intro s
      simp only [runChecks, checkIdle]
      split_ifs with h1 h2
      · simpa [List.count_cons] using ih _
      · simpa [List.count_cons] using runChecks_med_zero ts _ (by simp)
      · simpa using ih _

/-- A movement-free run of idle checks emits LongIdle at most once. -/
theorem runChecks_long_le_one (ts : List Nat) :
    ∀ s : IdleTracker, (runChecks s ts).2.count Event.longIdle ≤ 1 := by
  induction ts with
  | nil => intro s; simp [runChecks]
  | cons t ts ih =>
      intro s
      simp only [runChecks, checkIdle]
      split_ifs with h1 h2
      · simpa [List.count_cons] using runChecks_long_zero ts _ (by simp)
      · simpa [List.count_cons] using ih _
      · simpa using ih _

/-- C5 (counterexample): starting a fresh idle episode at time 0 with the
default thresholds (8000 ms medium, 30000 ms long) and checking at 8000
and then at 30000 with no intervening pointer movement emits BOTH
MediumIdle and LongIdle — two signals of the set in one uninterrupted
idle episode, contradicting "at most one". -/
theorem c5_counterexample :
    (runChecks
        (onMouseMove 0
          { lastMove := 0, medEmitted := true, longEmitted := true,
            mediumIdleMs := 8000, longIdleMs := 30000 })
        [8000, 30000]).2 = [Event.mediumIdle, Event.longIdle] ∧
    (runChecks
        (onMouseMove 0
          { lastMove := 0, medEmitted := true, longEmitted := true,
            mediumIdleMs := 8000, longIdleMs := 30000 })
        [8000, 30000]).2.count Event.mediumIdle +
      (runChecks
        (onMouseMove 0
          { lastMove := 0, medEmitted := true, longEmitted := true,
            mediumIdleMs := 8000, longIdleMs := 30000 })
        [8000, 30000]).2.count Event.longIdle = 2 := by decide

/-- C5 (amended): within one uninterrupted idle episode the classifier
emits MediumIdle at most once and LongIdle at most once (both may fire
in sequence in a single long episode); any pointer movement resets both
already-emitted flags; and at a check where the long threshold is
exceeded and LongIdle is still eligible, LongIdle is the signal emitted,
taking priority over MediumIdle. -/
theorem c5_amended (s : IdleTracker) (ts : List Nat) (t : Nat) :
    (runChecks s ts).2.count Event.mediumIdle ≤ 1 ∧
    (runChecks s ts).2.count Event.longIdle ≤ 1 ∧
    ((onMouseMove t s).medEmitted = false ∧
      (onMouseMove t s).longEmitted = false) ∧
    (t - s.lastMove ≥ s.longIdleMs → s.longEmitted = false →
      (checkIdle t s).2 = some Event.longIdle) := by
  refine ⟨runChecks_med_le_one ts s, runChecks_long_le_one ts s,
    ⟨rfl, rfl⟩, ?_⟩
  intro h1 h2
  simp [checkIdle, h1, h2]

/-- C5 (witness): the amended statement evaluated on the default
thresholds, an episode starting at 0 with checks at 8000 and 30000, and
the priority clause discharged at the check at time 30000. -/
theorem c5_witness :
    (runChecks
        { lastMove := 0, medEmitted := false, longEmitted := false,
          mediumIdleMs := 8000, longIdleMs := 30000 }
        [8000, 30000]).2.count Event.mediumIdle ≤ 1 ∧
    (runChecks
        { lastMove := 0, medEmitted := false, longEmitted := false,
          mediumIdleMs := 8000, longIdleMs := 30000 }
        [8000, 30000]).2.count Event.longIdle ≤ 1 ∧
    (checkIdle 30000
        { lastMove := 0, medEmitted := false, longEmitted := false,
          mediumIdleMs := 8000, longIdleMs := 30000 }).2
      = some Event.longIdle :=
  ⟨(c5_amended
      { lastMove := 0, medEmitted := false, longEmitted := false,
        mediumIdleMs := 8000, longIdleMs := 30000 } [8000, 30000] 30000).1,
   (c5_amended
      { lastMove := 0, medEmitted := false, longEmitted := false,
        mediumIdleMs := 8000, longIdleMs := 30000 } [8000, 30000] 30000).2.1,
   (c5_amended
      { lastMove := 0, medEmitted := false, longEmitted := false,
        mediumIdleMs := 8000, longIdleMs := 30000 } [8000, 30000] 30000).2.2.2
     (by decide) (by decide)⟩

/-- C6: from IDLE with an empty disabled set, `send(MediumIdle)` always
transitions (result true) to exactly the state selected by the
sequential Bernoulli cascade over the MediumIdle rules in declaration
order — STRETCHING when its own draw passes the 0.35 guard, otherwise
GROOMING when its own draw passes the 0.5 guard, otherwise DRINKING
unconditionally — and that state is always one of the three, never a
fourth. -/
theorem c6 (ρ : Nat → ℚ) :
    ((send ρ Event.mediumIdle initSM).1.state =
      if ρ 5 < 35/100 then State.stretching
      else if ρ 6 < 50/100 then State.grooming
      else State.drinking) ∧
    (send ρ Event.mediumIdle initSM).1.state ∈
      [State.stretching, State.grooming, State.drinking] ∧
    (send ρ Event.mediumIdle initSM).2.2 = true := by
  by_cases h5 : ρ 5 < 35/100 <;> by_cases h6 : ρ 6 < 50/100 <;>
    simp [send, initSM, transitions, firstMatch, guardPasses, h5, h6]

/-- C6 (witness): with the draw fixed at 0, the 0.35 guard passes and
the cascade selects STRETCHING. -/
theorem c6_witness :
    ((send (fun _ => 0) Event.mediumIdle initSM).1.state =
      if (0 : ℚ) < 35/100 then State.stretching
      else if (0 : ℚ) < 50/100 then State.grooming
      else State.drinking) ∧
    (send (fun _ => 0) Event.mediumIdle initSM).1.state ∈
      [State.stretching, State.grooming, State.drinking] ∧
    (send (fun _ => 0) Event.mediumIdle initSM).2.2 = true :=
  c6 (fun _ => 0)

/-- The proximity side effect never touches the cooldown timestamps. -/
theorem nearUpdate_cooldowns (ev : Event) (c : Ctrl) :
    (nearUpdate ev c).cooldowns = c.cooldowns := by
  unfold nearUpdate
  split_ifs <;> rfl

/-- A cooldown-gated event arriving within its window is dropped without
any controller change. -/
theorem cooldownGate_drop (now : Nat) (ev : Event) (c : Ctrl) (cd : Nat)
    (h : cooldownMs ev = some cd) (hlt : now - c.cooldowns ev < cd) :
    cooldownGate now ev c = (c, false) := by
  simp [cooldownGate, h, hlt]

/-- A cooldown-gated event arriving at or past its window is forwarded
and its last-fired timestamp is set to now. -/
theorem cooldownGate_forward (now : Nat) (ev : Event) (c : Ctrl) (cd : Nat)
    (h : cooldownMs ev = some cd) (hge : ¬ now - c.cooldowns ev < cd) :
    cooldownGate now ev c =
      ({ c with cooldowns := fun e => if e = ev then now else c.cooldowns e },
        true) := by
  simp [cooldownGate, h, hge]

/-- An event passing the fast-notice geographic gate proceeds to the
cooldown gate after the proximity side effect. -/
theorem handleEvent_geo_pass (now : Nat) (px py cx cy : ℤ) (ev : Event)
    (c : Ctrl)
    (hg : ¬((ev = Event.cursorFast ∨ ev = Event.repeatedFast) ∧
        (px - cx) ^ 2 + (py - cy) ^ 2 > fastNoticeRange ^ 2)) :
    handleEvent now px py cx cy ev c = cooldownGate now ev (nearUpdate ev c) := by
  simp only [handleEvent]
  rw [if_neg hg]

/-- C7: for any signal kind with a cooldown entry, if a first occurrence
reaching the gate is forwarded, then a second occurrence arriving within
the cooldown window is silently dropped and leaves every last-fired
timestamp untouched, while a second occurrence arriving at or past the
window is forwarded as well.  The geographic-gate hypotheses are
vacuous for every signal other than CursorFast/RepeatedFast. -/
theorem c7 (ev : Event) (cd : Nat) (hcd : cooldownMs ev = some cd)
    (t1 t2 : Nat) (px1 py1 cx1 cy1 px2 py2 cx2 cy2 : ℤ) (c : Ctrl)
    (hg1 : ¬((ev = Event.cursorFast ∨ ev = Event.repeatedFast) ∧
        (px1 - cx1) ^ 2 + (py1 - cy1) ^ 2 > fastNoticeRange ^ 2))
    (hg2 : ¬((ev = Event.cursorFast ∨ ev = Event.repeatedFast) ∧
        (px2 - cx2) ^ 2 + (py2 - cy2) ^ 2 > fastNoticeRange ^ 2))
    (h1 : (handleEvent t1 px1 py1 cx1 cy1 ev c).2 = true) :
    (t2 - t1 < cd →
      (handleEvent t2 px2 py2 cx2 cy2 ev
          (handleEvent t1 px1 py1 cx1 cy1 ev c).1).2 = false ∧
      (handleEvent t2 px2 py2 cx2 cy2 ev
          (handleEvent t1 px1 py1 cx1 cy1 ev c).1).1.cooldowns =
        (handleEvent t1 px1 py1 cx1 cy1 ev c).1.cooldowns) ∧
    (cd ≤ t2 - t1 →
      (handleEvent t2 px2 py2 cx2 cy2 ev
          (handleEvent t1 px1 py1 cx1 cy1 ev c).1).2 = true) := by
  have he1 := handleEvent_geo_pass t1 px1 py1 cx1 cy1 ev c hg1
  by_cases hlt1 : t1 - (nearUpdate ev c).cooldowns ev < cd
  · rw [he1, cooldownGate_drop t1 ev (nearUpdate ev c) cd hcd hlt1] at h1
    cases h1
  · have hc1 : (handleEvent t1 px1 py1 cx1 cy1 ev c).1 =
        { nearUpdate ev c with
          cooldowns := fun e => if e = ev then t1
            else (nearUpdate ev c).cooldowns e } := by
      rw [he1, cooldownGate_forward t1 ev (nearUpdate ev c) cd hcd hlt1]
    have hc1ev : (handleEvent t1 px1 py1 cx1 cy1 ev c).1.cooldowns ev = t1 := by
      rw [hc1]; simp
    have he2 := handleEvent_geo_pass t2 px2 py2 cx2 cy2 ev
      (handleEvent t1 px1 py1 cx1 cy1 ev c).1 hg2
    constructor
    · intro hlt2
      have hph : t2 - (nearUpdate ev
          (handleEvent t1 px1 py1 cx1 cy1 ev c).1).cooldowns ev < cd := by
        rw [nearUpdate_cooldowns, hc1ev]; exact hlt2
      rw [he2, cooldownGate_drop t2 ev _ cd hcd hph]
      exact ⟨rfl, nearUpdate_cooldowns _ _⟩
    · intro hge2
      have hph : ¬ t2 - (nearUpdate ev
          (handleEvent t1 px1 py1 cx1 cy1 ev c).1).cooldowns ev < cd := by
        rw [nearUpdate_cooldowns, hc1ev]; omega
      rw [he2, cooldownGate_forward t2 ev _ cd hcd hph]

/-- C7 (witness): MediumIdle (cooldown 1000 ms) forwarded at t=2000 from
a fresh controller; a repeat at t=2500 is dropped with timestamps
untouched, while a repeat at t=3000 is forwarded. -/
theorem c7_witness :
    ((handleEvent 2500 0 0 0 0 Event.mediumIdle
        (handleEvent 2000 0 0 0 0 Event.mediumIdle initCtrl).1).2 = false ∧
     (handleEvent 2500 0 0 0 0 Event.mediumIdle
        (handleEvent 2000 0 0 0 0 Event.mediumIdle initCtrl).1).1.cooldowns =
       (handleEvent 2000 0 0 0 0 Event.mediumIdle initCtrl).1.cooldowns) ∧
    (handleEvent 3000 0 0 0 0 Event.mediumIdle
        (handleEvent 2000 0 0 0 0 Event.mediumIdle initCtrl).1).2 = true :=
  ⟨(c7 Event.mediumIdle 1000 rfl 2000 2500 0 0 0 0 0 0 0 0 initCtrl
      (by decide) (by decide) (by decide)).1 (by decide),
   (c7 Event.mediumIdle 1000 rfl 2000 3000 0 0 0 0 0 0 0 0 initCtrl
      (by decide) (by decide) (by decide)).2 (by decide)⟩

/-- C8: a CursorFast or RepeatedFast signal with the pointer strictly
beyond the 250 px notice radius of the cat's rendered position is
discarded outright — the controller state (cooldown timestamps included)
is returned unchanged and the signal never reaches the state machine —
while within the radius the signal proceeds to the ordinary cooldown
gate. -/
theorem c8 (ev : Event)
    (hev : ev = Event.cursorFast ∨ ev = Event.repeatedFast)
    (now : Nat) (px py cx cy : ℤ) (c : Ctrl) :
    ((px - cx) ^ 2 + (py - cy) ^ 2 > fastNoticeRange ^ 2 →
      handleEvent now px py cx cy ev c = (c, false)) ∧
    ((px - cx) ^ 2 + (py - cy) ^ 2 ≤ fastNoticeRange ^ 2 →
      handleEvent now px py cx cy ev c = cooldownGate now ev c) := by
  have hnear : nearUpdate ev c = c := by
    rcases hev with h | h <;> subst h <;> simp [nearUpdate]
  constructor
  · intro hfar
    simp only [handleEvent, hnear]
    rw [if_pos ⟨hev, hfar⟩]
  · intro hle
    simp only [handleEvent, hnear]
    rw [if_neg (fun hcn => absurd hcn.2 (not_lt.mpr hle))]

/-- C8 (witness): a CursorFast at distance 300 px is discarded with the
controller unchanged; a CursorFast at distance 0 proceeds to the
cooldown gate. -/
theorem c8_witness :
    handleEvent 0 300 0 0 0 Event.cursorFast initCtrl = (initCtrl, false) ∧
    handleEvent 5000 0 0 0 0 Event.cursorFast initCtrl =
      cooldownGate 5000 Event.cursorFast initCtrl :=
  ⟨(c8 Event.cursorFast (Or.inl rfl) 0 300 0 0 0 initCtrl).1 (by decide),
   (c8 Event.cursorFast (Or.inl rfl) 5000 0 0 0 0 initCtrl).2 (by decide)⟩

/-- C9 (code bug): `applySettings({ idleTimeout: ... })` throws — the
call forwards to `this._tracker.setIdleTimeout`, but the CursorTracker
class defines no such method, so the call raises a TypeError instead of
updating the idle timeout; the claim (and the spec) say applySettings
never throws and forwards the idle timeout to the classifier.  The
disabled-states path and the all-fields-absent path behave as claimed. -/
theorem c9_code_bug :
    applySettings { idleTimeout := some 10000 } initSM =
      Except.error "TypeError: setIdleTimeout is not a function" ∧
    "setIdleTimeout" ∉ trackerMethods ∧
    applySettings { disabledStates := some [State.pounce] } initSM =
      Except.ok ⟨State.idle, [State.pounce], none⟩ ∧
    applySettings {} initSM = Except.ok initSM :=
  ⟨rfl, by decide, rfl, rfl⟩

/-- C10: no rule of the transition table carries CircularMotion, so for
every machine and oracle `send(CircularMotion)` returns false and leaves
the machine — state, pending auto-advance timer, and disabled set —
exactly unchanged, even though the controller keeps a 2000 ms cooldown
entry for CircularMotion and the classifier's circular-motion detector
does emit the signal (witnessed on a full 30-sample buffer of 17-degree
deltas summing to 510 ≥ 500). -/
theorem c10 (ρ : Nat → ℚ) (m : SM) :
    (∀ s : State, ∀ r ∈ transitions s, r.event ≠ Event.circularMotion) ∧
    send ρ Event.circularMotion m = (m, [], false) ∧
    cooldownMs Event.circularMotion = some 2000 ∧
    (trackCircularMotion (List.replicate 29 (17 : ℚ)) 17).2 = true := by
  have hall : ∀ s : State, ∀ r ∈ transitions s,
      r.event ≠ Event.circularMotion := by decide
  refine ⟨hall, ?_, rfl, by
    norm_num [trackCircularMotion, wrapDelta, ratAbs, List.replicate,
      List.foldl]⟩
  have hfm := firstMatch_none_of_event_ne ρ Event.circularMotion m.disabled 0
    (transitions m.state) (hall m.state)
  simp [send, hfm]

/-- C10 (witness): from POUNCE with a pending 800 ms timer, a
CircularMotion signal is a no-op. -/
theorem c10_witness :
    send (fun _ => 0) Event.circularMotion
        { state := State.pounce, disabled := [], timer := some 800 } =
      ({ state := State.pounce, disabled := [], timer := some 800 },
        [], false) :=
  (c10 (fun _ => 0)
    { state := State.pounce, disabled := [], timer := some 800 }).2.1

end TinyCat
